import Mathlib

/-!
Shallow embedding of the InQuest Labs API client (`inquestlabs.py`): the
credential resolution chain in `inquestlabs_api.__init__`, the resilient
request executor `__API`, the hasher `__HASH`, and the DFI facade methods
`dfi_search`, `dfi_upload` and `dfi_download`.

Python values and effects are made explicit:
  * exceptions become an `Except PyError` result;
  * the process environment, the filesystem and the HTTP transport are
    passed in as explicit parameters;
  * the `hashlib` library is an opaque digest oracle mapping an algorithm
    name and a byte sequence to a hex digest string;
  * the executor additionally returns the ordered trace of observable
    events (HTTP requests issued, backoff sleeps performed).

The embedding follows Python 3 semantics (the module imports the Python 3
standard library `configparser`): in particular a `bytes` value and a `str`
value never compare equal, and empty strings / empty byte sequences are
falsy in conditions.
-/

/-- Byte sequences (Python `bytes`), each entry one byte value. -/
abbrev Bytes := List Nat

/-- Python values as far as the client compares them: `str` or `bytes`. -/
inductive PyVal where
  | str (s : String)
  | bytes (b : Bytes)
deriving DecidableEq

/-- Python 3 equality on `PyVal`: `str` compares with `str`, `bytes` with
`bytes`, and a `bytes` value never equals a `str` value. -/
def pyEq : PyVal → PyVal → Bool
  | .str a, .str b => a == b
  | .bytes a, .bytes b => a == b
  | _, _ => false

/-- Python `in` membership test over a list literal, under `pyEq`. -/
def pyMem (x : PyVal) (l : List PyVal) : Bool :=
  l.any (pyEq x)

/-- Exceptions the embedded code can raise. `labsException` is the
repository's own `inquestlabs_exception` carrying its message; the others
are the Python built-ins that the code can hit. `fuelExhausted` is an
artifact of the embedding only: it marks running out of loop fuel and is
proved unreachable for the fuel the executor supplies. -/
inductive PyError where
  | assertionError
  | attributeError (attr : String)
  | labsException (message : String)
  | jsonDecodeError
  | fileNotFound (path : String)
  | unboundLocal (name : String)
  | typeError
  | fuelExhausted
deriving DecidableEq

/-- JSON response envelope `{"success": bool, "data": ..., "error": ...}`;
the payload under `data` is kept opaque as a string. -/
structure Envelope where
  success : Bool
  data : String
  error : Option String
deriving DecidableEq

/-- An HTTP response as the client observes it: status code, raw body
bytes (`response.content`), and the outcome of `response.json()` —
`none` models a body that is not valid JSON, so that calling `.json()`
raises a JSON decode error. -/
structure HttpResponse where
  status_code : Nat
  content : Bytes
  json : Option Envelope
deriving DecidableEq

/-- Outcome of one `requests.request(...)` call: a transport-level
exception (DNS failure, refused connection, timeout, ...) or a received
HTTP response. The transport is modelled as a function from the attempt
number to an outcome. -/
inductive TransportOutcome where
  | exn
  | ok (r : HttpResponse)
deriving DecidableEq

/-- Minimal filesystem: regular files with contents, plus directories. -/
structure FS where
  files : List (String × Bytes)
  dirs : List String
deriving DecidableEq

/-- Model of `os.path.isfile`. -/
def os_path_isfile (fs : FS) (p : String) : Bool :=
  (fs.files.lookup p).isSome

/-- Model of `os.path.exists`: a path exists when it is a regular file or
a directory. -/
def os_path_exists (fs : FS) (p : String) : Bool :=
  os_path_isfile fs p || fs.dirs.contains p

/-- Contents of a regular file (used only behind an `isfile` check). -/
def FS.read (fs : FS) (p : String) : Bytes :=
  (fs.files.lookup p).getD []

/-- Model of `open(path, "wb+")` followed by a full write: the file at
`path` now holds exactly `data` (a later `FS.read` finds it first). -/
def FS.write (fs : FS) (p : String) (data : Bytes) : FS :=
  { fs with files := (p, data) :: fs.files }

/-- Observable events of the request executor. The sleep event records
the upper end of the uniform random interval the jittered delay is drawn
from (the draw itself is the only nondeterminism and is abstracted to its
ceiling). -/
inductive ApiEvent where
  | httpRequest (attempt : Nat)
  | sleep (ceiling : ℚ)
deriving DecidableEq

/-- Value returned by the executor on success: the raw body bytes when the
`raw` flag is raised, otherwise the envelope's `data` payload. -/
inductive ApiReturn where
  | raw (content : Bytes)
  | data (payload : String)
deriving DecidableEq

/-- Outcome of reading the config file with `configparser`:
`readRaises` models `config.read` raising; `parsed v` models a parse that
succeeded, with `v` the value found under section `inquestlabs`, key
`apikey` (`none` when `config.get` raises because section or key is
missing). -/
inductive ConfigData where
  | readRaises
  | parsed (inquestlabs_apikey : Option String)
deriving DecidableEq

/-- The attributes `inquestlabs_api.__init__` assigns (lines 89-102). -/
structure Client where
  api_key : Option String
  base_url : String
  config_file : String
  num_retries : Nat
  verify_ssl : Bool
deriving DecidableEq

/-- Python `str.lower()` over the string's characters (the inputs the
client lowercases are ASCII enum and algorithm names). -/
def strLower (s : String) : String :=
  ⟨s.data.map Char.toLower⟩

/-- Python truthiness of an optional string: `None` and `""` are falsy. -/
def truthy : Option String → Bool
  | none => false
  | some s => s != ""

/-- Python truthiness of an optional byte sequence: `None` and `b""` are
falsy. -/
def truthyBytes : Option Bytes → Bool
  | none => false
  | some b => !b.isEmpty

/-- Enumeration `VALID_CAT` (line 52). -/
def VALID_CAT : List String := ["ext", "hash", "ioc"]

/-- Enumeration `VALID_EXT` (line 53). -/
def VALID_EXT : List String := ["code", "context", "metadata", "ocr"]

/-- Enumeration `VALID_HASH` (line 54). -/
def VALID_HASH : List String := ["md5", "sha1", "sha256", "sha512"]

/-- Enumeration `VALID_IOC` (line 55). -/
def VALID_IOC : List String := ["domain", "email", "filename", "ip", "url", "xmpid"]

/-- Python `", ".join(...)`. -/
def joinComma (l : List String) : String :=
  String.intercalate ", " l

/-- Default API endpoint (line 98). -/
def default_base_url : String := "https://labs.inquest.net/api"

/-- Message of the `inquestlabs_exception` raised when `config.read`
raises (line 120). -/
def invalid_config_msg (cf : String) : String :=
  "invalid configuration file: " ++ cf

/-- Message of the `inquestlabs_exception` raised when `config.get`
raises (line 125). -/
def missing_key_msg (cf : String) : String :=
  "unable to find inquestlabs.apikey in: " ++ cf

/-- Model of `inquestlabs_api.__init__` (lines 69-127). Parameters beyond
the Python signature inject the ambient state: `homedir` is
`os.path.expanduser("~")`, `env_IQLABS_APIKEY` is
`os.environ.get("IQLABS_APIKEY")`, `fs` is the filesystem, and `cfg`
gives the `configparser` outcome for a config file path. -/
def inquestlabs_init (api_key config : Option String) (base_url : Option String)
    (retries : Nat) (homedir : String) (env_IQLABS_APIKEY : Option String)
    (fs : FS) (cfg : String → ConfigData) : Except PyError Client :=
  -- `if self.base_url is None` / `if self.config_file is None`: the
  -- defaults apply exactly when the argument is None, not merely falsy.
  let base_url' := base_url.getD default_base_url
  let config_file := config.getD (homedir ++ "/.iqlabskey")
  -- if not self.api_key: (line 105)
  if truthy api_key then
    .ok ⟨api_key, base_url', config_file, retries, true⟩
  else
    -- self.api_key = os.environ.get("IQLABS_APIKEY") (line 108)
    let k := env_IQLABS_APIKEY
    -- if not self.api_key and os.path.exists(..) and os.path.isfile(..): (line 114)
    if ¬ truthy k ∧ os_path_exists fs config_file ∧ os_path_isfile fs config_file then
      match cfg config_file with
      | .readRaises => .error (.labsException (invalid_config_msg config_file))
      | .parsed none => .error (.labsException (missing_key_msg config_file))
      | .parsed (some v) => .ok ⟨some v, base_url', config_file, retries, true⟩
    else
      .ok ⟨k, base_url', config_file, retries, true⟩

/-- Ceiling of the jittered backoff interval after the failure of attempt
number `attempt` (0-based): `4 ** attempt * 100 / 1000.0` seconds
(line 187), as exact rational arithmetic. -/
def backoff_ceiling (attempt : Nat) : ℚ :=
  4 ^ attempt * 100 / 1000

/-- Message of the `inquestlabs_exception` raised when retries are
exhausted (lines 192-193). -/
def exhausted_msg (retries : Nat) (endpoint : String) : String :=
  "exceeded " ++ toString retries ++ " attempts to communicate with InQuest Labs API endpoint "
    ++ endpoint ++ "."

/-- Attribute lookup `self.retries` performed by the loop's exhaustion
check (line 191). `__init__` assigns `api_key`, `base_url`, `config_file`,
`num_retries`, `proxies` and `verify_ssl` and nothing ever assigns a
`retries` attribute, so the lookup raises `AttributeError`. -/
def Client.retries_attr (_ : Client) : Except PyError Nat :=
  .error (.attributeError "retries")

/-- The `while 1` retry loop of `__API` (lines 180-194). Each iteration
issues one HTTP request; on a received response the loop breaks; on a
transport exception it sleeps for the jittered delay, increments the
attempt counter and re-enters unless the counter has reached
`self.retries` (an attribute lookup that raises, see
`Client.retries_attr`). The `fuel` argument bounds the recursion for the
embedding only; `request_loop_fuel_irrelevant` below shows any positive
fuel gives the loop's full behaviour. -/
def request_loop (transport : Nat → TransportOutcome) (c : Client) (endpoint : String) :
    Nat → Nat → List ApiEvent → Except PyError HttpResponse × List ApiEvent
  | 0, _, evs => (.error .fuelExhausted, evs)
  | fuel + 1, attempt, evs =>
    match transport attempt with
    | .ok r => (.ok r, evs ++ [.httpRequest attempt])
    | .exn =>
      -- time.sleep(random.uniform(0, 4 ** attempt * 100 / 1000.0)); attempt += 1
      let evs := evs ++ [.httpRequest attempt, .sleep (backoff_ceiling attempt)]
      -- if attempt == self.retries: raise inquestlabs_exception(...)
      match c.retries_attr with
      | .error e => (.error e, evs)
      | .ok retries =>
        if attempt + 1 == retries then
          (.error (.labsException (exhausted_msg retries endpoint)), evs)
        else
          request_loop transport c endpoint fuel (attempt + 1) evs

/-- Message of the `inquestlabs_exception` raised on a 200 response whose
envelope has `success == false` (lines 212-213). -/
def status200_error_msg (endpoint : String) (err : Option String) : String :=
  "status=200 but error communicating with " ++ endpoint ++ ": " ++ err.getD "n/a"

/-- Message of the `inquestlabs_exception` raised on a non-200 response
(lines 219-220). -/
def http_error_msg (code : Nat) (endpoint : String) (err : Option String) : String :=
  "status=" ++ toString code ++ " error communicating with " ++ endpoint ++ ": " ++ err.getD "n/a"

/-- Model of `inquestlabs_api.__API` (lines 130-223). Returns the result
together with the ordered trace of HTTP requests and sleeps. `data` is
the form-field dictionary (opaque to the executor), `path` an optional
file to attach. -/
def API (c : Client) (transport : Nat → TransportOutcome) (fs : FS)
    (api : String) (data : List (String × String)) (path : Option String)
    (method : String) (raw : Bool) : Except PyError ApiReturn × List ApiEvent :=
  -- assert method in ["GET", "POST"] (line 149)
  if ¬ (method = "GET" ∨ method = "POST") then
    (.error .assertionError, [])
  else
    -- if path: files = dict(file=open(path, "rb")) (lines 154-155)
    let openFailed :=
      match path with
      | some p => truthy (some p) && ¬ os_path_isfile fs p
      | none => false
    if openFailed then
      (.error (.fileNotFound (path.getD "")), [])
    else
      let endpoint := c.base_url ++ api
      match request_loop transport c endpoint (c.num_retries + 1) 0 [] with
      | (.error e, evs) => (.error e, evs)
      | (.ok response, evs) =>
        if response.status_code = 200 then
          if raw then
            (.ok (.raw response.content), evs)
          else
            match response.json with
            | none => (.error .jsonDecodeError, evs)
            | some env =>
              if env.success then
                (.ok (.data env.data), evs)
              else
                (.error (.labsException (status200_error_msg endpoint env.error)), evs)
        else
          match response.json with
          | none => (.error .jsonDecodeError, evs)
          | some env =>
            (.error (.labsException (http_error_msg response.status_code endpoint env.error)), evs)

/-- Message of the `inquestlabs_exception` raised by `__HASH` when
neither source is supplied (line 273). -/
def hash_neither_msg : String :=
  "hash expects either 'path' or 'bytes'."

/-- Model of `inquestlabs_api.__HASH` (lines 226-283) at its default
`fmt="digest"` (the only format the embedded call sites use). `hashlib`
is the external digest oracle: algorithm name and full input bytes to hex
digest — the block-wise 16 KiB file read folds block by block into the
hash state, which amounts to hashing the whole contents. An algorithm
outside the four selections leaves the local `hashfunc` unbound, so its
first use raises. -/
def HASH (hashlib : String → Bytes → String) (fs : FS)
    (path : Option String) (bytes : Option Bytes) (algorithm : String) :
    Except PyError String :=
  let alg := strLower algorithm
  let hashfunc : Option (Bytes → String) :=
    if alg = "md5" then some (hashlib "md5")
    else if alg = "sha1" then some (hashlib "sha1")
    else if alg = "sha256" then some (hashlib "sha256")
    else if alg = "sha512" then some (hashlib "sha512")
    else none
  -- if path: (line 257)
  if truthy path then
    let p := path.getD ""
    if ¬ os_path_isfile fs p then
      .error (.fileNotFound p)
    else
      match hashfunc with
      | none => .error (.unboundLocal "hashfunc")
      | some h => .ok (h (FS.read fs p))
  -- elif bytes: (line 268)
  else if truthyBytes bytes then
    match hashfunc with
    | none => .error (.unboundLocal "hashfunc")
    | some h => .ok (h (bytes.getD []))
  -- else: raise inquestlabs_exception(...) (line 273)
  else
    .error (.labsException hash_neither_msg)

/-- Shortcut `sha256` (line 289). -/
def sha256_shortcut (hashlib : String → Bytes → String) (fs : FS)
    (path : Option String) (bytes : Option Bytes) : Except PyError String :=
  HASH hashlib fs path bytes "sha256"

/-- Request shape handed to `__API` by a facade method. -/
structure RequestSpec where
  endpoint : String
  method : String
  data : List (String × String)
  file : Option String
deriving DecidableEq

/-- Validation and request building of `inquestlabs_api.dfi_search`
(lines 400-443), up to the final `__API` call: returns the `RequestSpec`
it would issue, or the validation error. -/
def dfi_search_request (category subcategory keyword : String) :
    Except PyError RequestSpec :=
  -- normalize to lowercase (lines 419-420)
  let cat := strLower category
  let sub := strLower subcategory
  -- if category not in VALID_CAT: (line 423)
  if ¬ VALID_CAT.contains cat then
    .error (.labsException
      ("invalid category '" ++ cat ++ "'. valid categories include: " ++ joinComma VALID_CAT))
  else
    -- for c, v in zip(VALID_CAT, [VALID_EXT, VALID_HASH, VALID_IOC]): (lines 428-432)
    let subErr := (List.zip VALID_CAT [VALID_EXT, VALID_HASH, VALID_IOC]).findSome?
      (fun cv =>
        if cat = cv.1 ∧ ¬ cv.2.contains sub then
          some ("invalid subcategory '" ++ sub ++ "' for category '" ++ cat
            ++ "'. valid subcategories include: " ++ joinComma cv.2)
        else none)
    match subErr with
    | some msg => .error (.labsException msg)
    | none =>
      -- if category == "ext": subcategory = "ext_" + subcategory (lines 435-436)
      let sub' := if cat = "ext" then "ext_" ++ sub else sub
      -- hash keyword travels under field "hash", otherwise "keyword" (lines 438-441)
      let d := if cat = "hash" then [("hash", keyword)] else [("keyword", keyword)]
      .ok ⟨"/dfi/search/" ++ cat ++ "/" ++ sub', "GET", d, none⟩

/-- Full `dfi_search`: build the request then dance with the API. -/
def dfi_search (c : Client) (transport : Nat → TransportOutcome) (fs : FS)
    (category subcategory keyword : String) : Except PyError ApiReturn × List ApiEvent :=
  match dfi_search_request category subcategory keyword with
  | .error e => (.error e, [])
  | .ok spec => API c transport fs spec.endpoint spec.data spec.file spec.method false

/-- Upload types named by the `dfi_upload` error message (line 470). -/
def VALID_TYPES : List String := ["doc", "docx", "ppt", "pptx", "xls", "xlsx"]

/-- The legacy-compound-document magic, as the `str` literal
`"\xD0\xCF"` appearing in the source (two characters U+00D0, U+00CF). -/
def magic_ole : String := "ÐÏ"

/-- Message of the `inquestlabs_exception` raised when the leading bytes
match neither magic sequence (lines 479-480). -/
def unsupported_type_msg : String :=
  "unsupported file type for upload, valid files include: " ++ joinComma VALID_TYPES

/-- Validation and request building of `inquestlabs_api.dfi_upload`
(lines 458-484), up to the final `__API` call. The magic-byte sniff
compares `fh.read(2)` — a `bytes` value — against the list of `str`
literals `["\xD0\xCF", "PK"]` under Python 3 equality (`pyEq`). -/
def dfi_upload_request (fs : FS) (path : String) : Except PyError RequestSpec :=
  -- if not os.path.exists(path) or not os.path.isfile(path): (line 473)
  if ¬ (os_path_exists fs path ∧ os_path_isfile fs path) then
    .error (.labsException ("invalid file path specified for upload: " ++ path))
  else
    -- if fh.read(2) not in ["\xD0\xCF", "PK"]: (line 478)
    let first2 : PyVal := .bytes ((FS.read fs path).take 2)
    if ¬ pyMem first2 [.str magic_ole, .str "PK"] then
      .error (.labsException unsupported_type_msg)
    else
      .ok ⟨"/dfi/upload", "POST", [], some path⟩

/-- Message of the `inquestlabs_exception` raised on a download digest
mismatch (lines 380-381). -/
def integrity_msg (expected calculated : String) : String :=
  "failed downloading file! expected sha256=" ++ expected
    ++ " calculated sha256=" ++ calculated

/-- Model of `inquestlabs_api.dfi_download` (lines 362-386). Returns the
call outcome, the filesystem after the call (unchanged unless the write
at the end executes), and the executor's event trace. The `.data`
branch is unreachable for `raw=True`, which bypasses JSON decoding; were
a non-bytes payload ever handed to the hasher, `hashfunc.update` would
raise a `TypeError`. -/
def dfi_download (hashlib : String → Bytes → String)
    (transport : Nat → TransportOutcome) (c : Client)
    (sha256 path : String) (fs : FS) :
    Except PyError Unit × FS × List ApiEvent :=
  match API c transport fs "/dfi/download" [("sha256", sha256)] none "GET" true with
  | (.error e, evs) => (.error e, fs, evs)
  | (.ok (.data _), evs) => (.error .typeError, fs, evs)
  | (.ok (.raw data), evs) =>
    -- calculated = self.sha256(bytes=data) (line 377)
    match sha256_shortcut hashlib fs none (some data) with
    | .error e => (.error e, fs, evs)
    | .ok calculated =>
      -- if calculated != sha256: raise inquestlabs_exception(...) (lines 379-382)
      if calculated ≠ sha256 then
        (.error (.labsException (integrity_msg sha256 calculated)), fs, evs)
      else
        -- with open(path, "wb+") as fh: fh.write(data) (lines 385-386)
        (.ok (), FS.write fs path data, evs)

deriving instance DecidableEq for Except

/-- Concrete stand-in for the external digest oracle, used by the closed
instances below: an injective-on-inputs tagging of algorithm and content
(the claims under test never depend on the numeric digest values, only on
how the client routes them). -/
def hashlibTest : String → Bytes → String :=
  fun alg b => alg ++ "#" ++ toString b

/-- A client as `inquestlabs_api(retries=3)` builds it. -/
def client3 : Client :=
  ⟨none, default_base_url, "/home/u/.iqlabskey", 3, true⟩

/-- A transport whose every attempt raises a transport-level exception. -/
def failTransport : Nat → TransportOutcome := fun _ => .exn

/-- An empty filesystem. -/
def fs0 : FS := ⟨[], []⟩

/-- A filesystem holding one regular file that begins with the
zip-archive magic bytes `PK` (a `.docx`-style container). -/
def fsPK : FS := ⟨[("sample.docx", [0x50, 0x4B, 3, 4])], []⟩

/-- A filesystem holding a config file at `/h/.iqlabskey`. -/
def fsCfg : FS := ⟨[("/h/.iqlabskey", [1])], []⟩

/-- A transport answering every attempt with a 404 whose body is not
valid JSON. -/
def t404 : Nat → TransportOutcome := fun _ => .ok ⟨404, [], none⟩

/-- A transport answering with status 200 and an empty body. -/
def tEmpty : Nat → TransportOutcome := fun _ => .ok ⟨200, [], none⟩

/-- A transport answering with status 200 and body bytes `[7, 8]`. -/
def tData : Nat → TransportOutcome := fun _ => .ok ⟨200, [7, 8], none⟩

theorem request_loop_fuel_irrelevant (transport : Nat → TransportOutcome) (c : Client)
    (endpoint : String) (fuel attempt : Nat) (evs : List ApiEvent) :
    request_loop transport c endpoint (fuel + 1) attempt evs
      = request_loop transport c endpoint 1 attempt evs := by
  cases h : transport attempt <;> simp [request_loop, h, Client.retries_attr]

theorem request_loop_first_ok (transport : Nat → TransportOutcome) (c : Client)
    (endpoint : String) (fuel : Nat) (r : HttpResponse) (h : transport 0 = .ok r) :
    request_loop transport c endpoint (fuel + 1) 0 [] = (.ok r, [.httpRequest 0]) := by
  simp [request_loop, h]

theorem API_get_response (c : Client) (transport : Nat → TransportOutcome) (fs : FS)
    (api : String) (data : List (String × String)) (raw : Bool) (r : HttpResponse)
    (h : transport 0 = .ok r) :
    API c transport fs api data none "GET" raw
      = (if r.status_code = 200 then
           if raw then (.ok (.raw r.content), [ApiEvent.httpRequest 0])
           else match r.json with
             | none => (.error .jsonDecodeError, [ApiEvent.httpRequest 0])
             | some env =>
               if env.success then (.ok (.data env.data), [ApiEvent.httpRequest 0])
               else (.error (.labsException (status200_error_msg (c.base_url ++ api) env.error)),
                 [ApiEvent.httpRequest 0])
         else match r.json with
           | none => (.error .jsonDecodeError, [ApiEvent.httpRequest 0])
           | some env =>
             (.error (.labsException (http_error_msg r.status_code (c.base_url ++ api) env.error)),
               [ApiEvent.httpRequest 0])) := by
  have hl := request_loop_first_ok transport c (c.base_url ++ api) c.num_retries r h
  simp only [API, truthy]
  simp [hl]

/-- C1: the spec says a permanently failing transport causes exactly
`retry_budget` attempts, a sleep between consecutive attempts but none
after the last, then the typed `inquestlabs_exception` carrying the
attempt count and endpoint. The code instead reads `self.retries` in the
exhaustion check while `__init__` stores the budget as
`self.num_retries`, so after the first failed attempt — and one sleep,
which moreover follows that (last) attempt — the lookup raises
`AttributeError`. The repository's own test
`test_api_exceeded_attempts_to_communicate` and the docstring of the
`retries` argument expect the typed exception instead, so this is a slip
in the code. -/
theorem C1_retries_attribute_slip :
    (API client3 failTransport fs0 "/dfi/list" [] none "GET" false
      = (.error (.attributeError "retries"),
         [.httpRequest 0, .sleep (backoff_ceiling 0)]))
    ∧ ∀ c : Client, API c failTransport fs0 "/dfi/list" [] none "GET" false
      = (.error (.attributeError "retries"),
         [.httpRequest 0, .sleep (backoff_ceiling 0)]) :=
  ⟨rfl, fun _ => rfl⟩

/-- C2: a nonexistent path is rejected before any read of the file's
bytes, and non-magic leading bytes are rejected naming the acceptable
extensions — but the sniff compares the `bytes` value `fh.read(2)`
against `str` literals, which never compare equal in Python 3, so every
file, including one whose first two bytes are the zip magic `PK`, is
rejected as an unsupported type and the upload request is never built.
The third part of the claim contradicts the code; the code in turn
contradicts its own docstring ("the file must be one of doc, docx, ppt,
pptx, xls, xlsx") and the OLE/ZIP comment above the sniff. -/
theorem C2_upload_sniff_rejects_every_file :
    (∀ (fs : FS) (path : String), (dfi_upload_request fs path).isOk = false)
    ∧ dfi_upload_request fsPK "sample.docx" = .error (.labsException unsupported_type_msg)
    ∧ dfi_upload_request fs0 "nope"
      = .error (.labsException "invalid file path specified for upload: nope") := by
  refine ⟨?_, rfl, rfl⟩
  intro fs path
  unfold dfi_upload_request
  split
  · rfl
  · simp [pyMem, pyEq, Except.isOk, Except.toBool]

/-- C6: a method other than GET or POST fails the `assert` precondition
immediately — the typed failure the spec's taxonomy names `InvalidInput`
is Python's `AssertionError` here — with an empty event trace: zero HTTP
requests and zero sleeps, hence never subject to the retry loop. -/
theorem C6_method_precondition (c : Client) (transport : Nat → TransportOutcome)
    (fs : FS) (api : String) (data : List (String × String)) (path : Option String)
    (raw : Bool) (method : String)
    (h1 : method ≠ "GET") (h2 : method ≠ "POST") :
    API c transport fs api data path method raw = (.error .assertionError, []) := by
  unfold API
  rw [if_pos (fun hc => hc.elim h1 h2)]

/-- C6 witness: the concrete method "PUT" with a live transport issues
zero requests and fails the assertion. -/
theorem C6_method_precondition_witness :
    API client3 failTransport fs0 "/dfi/list" [] none "PUT" false
      = (.error .assertionError, []) :=
  C6_method_precondition client3 failTransport fs0 "/dfi/list" [] none false "PUT"
    (by decide) (by decide)

/-- C8: the jittered backoff delay after the failure of 0-based attempt
`n` is drawn from `[0, 4 ^ n * 0.1]` seconds — the code's
`4 ** attempt * 100 / 1000.0` equals `4 ^ n * (1/10)` — so successive
ceilings are 0.1, 0.4, 1.6, 6.4 and 25.6 seconds, and the loop's sleep
after a failed attempt records exactly that ceiling. -/
theorem C8_backoff_ceilings :
    (∀ n, backoff_ceiling n = 4 ^ n * (1 / 10))
    ∧ [0, 1, 2, 3, 4].map backoff_ceiling
        = [1/10, 4/10, 16/10, 64/10, 256/10]
    ∧ ∀ (transport : Nat → TransportOutcome) (c : Client) (endpoint : String)
        (fuel attempt : Nat) (evs : List ApiEvent), transport attempt = .exn →
        (request_loop transport c endpoint (fuel + 1) attempt evs).2
          = evs ++ [.httpRequest attempt, .sleep (backoff_ceiling attempt)] := by
  refine ⟨fun n => by rw [backoff_ceiling]; ring, ?_, ?_⟩
  · simp [backoff_ceiling]
    norm_num
  · intro transport c endpoint fuel attempt evs h
    simp [request_loop, h, Client.retries_attr]

/-- C8 witness: the sleep after failing attempt 0 of the concrete
permanently-failing transport records the ceiling `backoff_ceiling 0`,
which is 0.1 s. -/
theorem C8_backoff_ceilings_witness :
    (request_loop failTransport client3 "e" 1 0 []).2
      = [.httpRequest 0, .sleep (backoff_ceiling 0)]
    ∧ backoff_ceiling 0 = 1 / 10 := by
  constructor
  · have h := C8_backoff_ceilings.2.2 failTransport client3 "e" 0 0 [] rfl
    simpa using h
  · have h := C8_backoff_ceilings.1 0
    simpa using h

/-- C9: on a non-200 response the executor calls `response.json()`
before raising the typed status-carrying error, so a non-200 response
whose body fails JSON decoding raises the JSON decode error instead. -/
theorem C9_non200_invalid_json (c : Client) (transport : Nat → TransportOutcome)
    (fs : FS) (api : String) (data : List (String × String)) (raw : Bool)
    (r : HttpResponse) (hr : transport 0 = .ok r)
    (hs : r.status_code ≠ 200) (hj : r.json = none) :
    (API c transport fs api data none "GET" raw).1 = .error .jsonDecodeError := by
  rw [API_get_response c transport fs api data raw r hr]
  simp [hs, hj]

/-- C9 witness: a 404 whose body is not valid JSON yields the JSON
decode error. -/
theorem C9_non200_invalid_json_witness :
    (API client3 t404 fs0 "/x" [] none "GET" false).1 = .error .jsonDecodeError :=
  C9_non200_invalid_json client3 t404 fs0 "/x" [] false ⟨404, [], none⟩ rfl
    (by decide) rfl

/-- C3 counterexample: a call that supplies a byte buffer — the empty
one — and no path does not succeed: Python truthiness sends `b""` into
the "neither given" branch and the hasher raises the `InvalidInput`
error, refuting "every call that supplies a byte buffer (of any length,
including empty) and no path succeeds". -/
theorem C3_empty_buffer_counterexample :
    HASH hashlibTest fs0 none (some []) "md5"
      = .error (.labsException hash_neither_msg) := rfl

/-- C3 amended: the hasher fails with the `InvalidInput` error iff
neither a truthy (non-`None`, non-empty) path nor a truthy (non-`None`,
non-empty) byte buffer is given — Python truthiness makes an empty
buffer count as not given — and every call that supplies a non-empty
buffer and no path returns the digest of that buffer under the selected
algorithm. -/
theorem C3_hash_truthiness (hashlib : String → Bytes → String) (fs : FS)
    (path : Option String) (bytes : Option Bytes) (algorithm : String) :
    (HASH hashlib fs path bytes algorithm = .error (.labsException hash_neither_msg)
      ↔ truthy path = false ∧ truthyBytes bytes = false)
    ∧ ∀ b, bytes = some b → b ≠ [] → path = none →
        HASH hashlib fs path bytes algorithm
          = (if strLower algorithm = "md5" then .ok (hashlib "md5" b)
             else if strLower algorithm = "sha1" then .ok (hashlib "sha1" b)
             else if strLower algorithm = "sha256" then .ok (hashlib "sha256" b)
             else if strLower algorithm = "sha512" then .ok (hashlib "sha512" b)
             else .error (.unboundLocal "hashfunc")) := by
  constructor
  · constructor
    · intro h
      cases hp : truthy path
      · cases hb : truthyBytes bytes
        · exact ⟨rfl, rfl⟩
        · exfalso
          unfold HASH at h
          rw [hp, hb] at h
          simp at h
          split at h <;> simp_all
      · exfalso
        unfold HASH at h
        rw [hp] at h
        simp at h
        split at h
        · simp_all
        · split at h <;> simp_all
    · intro ⟨h1, h2⟩
      simp [HASH, h1, h2]
  · intro b hb hbne hp
    subst hb
    subst hp
    have hbe : b.isEmpty = false := by
      cases b
      · exact absurd rfl hbne
      · rfl
    unfold HASH
    simp only [truthy, truthyBytes, hbe]
    split_ifs <;> simp_all

/-- C3 witness: a two-byte buffer with no path yields its digest, and
supplying neither source yields the `InvalidInput` error. -/
theorem C3_hash_truthiness_witness :
    HASH hashlibTest fs0 none (some [1, 2]) "md5" = .ok (hashlibTest "md5" [1, 2])
    ∧ HASH hashlibTest fs0 none none "md5" = .error (.labsException hash_neither_msg) := by
  have h1 := (C3_hash_truthiness hashlibTest fs0 none (some [1, 2]) "md5").2 [1, 2]
    rfl (by decide) rfl
  have h2 := (C3_hash_truthiness hashlibTest fs0 none none "md5").1.mpr ⟨rfl, rfl⟩
  exact ⟨by rw [h1]; rfl, h2⟩

/-- C4: credential resolution tries, in order, a truthy explicit
`api_key`, the environment variable `IQLABS_APIKEY`, then the key
`apikey` under section `inquestlabs` of the config file; all three
absent with no config file resolves to `None` with no error; with no
explicit or environment key and an existing config file, an unparseable
file and a missing key each raise an `inquestlabs_exception` with its
own distinct message. -/
theorem C4_credential_resolution (api_key config burl : Option String)
    (retries : Nat) (homedir : String) (env : Option String) (fs : FS)
    (cfg : String → ConfigData) (cf : String)
    (hcf : cf = config.getD (homedir ++ "/.iqlabskey")) :
    (truthy api_key = true →
      inquestlabs_init api_key config burl retries homedir env fs cfg
        = .ok ⟨api_key, burl.getD default_base_url, cf, retries, true⟩)
    ∧ (truthy api_key = false → truthy env = true →
      inquestlabs_init api_key config burl retries homedir env fs cfg
        = .ok ⟨env, burl.getD default_base_url, cf, retries, true⟩)
    ∧ (truthy api_key = false → truthy env = false →
      os_path_exists fs cf = true → os_path_isfile fs cf = true →
      (cfg cf = .readRaises →
        inquestlabs_init api_key config burl retries homedir env fs cfg
          = .error (.labsException (invalid_config_msg cf)))
      ∧ (cfg cf = .parsed none →
        inquestlabs_init api_key config burl retries homedir env fs cfg
          = .error (.labsException (missing_key_msg cf)))
      ∧ ∀ v, cfg cf = .parsed (some v) →
        inquestlabs_init api_key config burl retries homedir env fs cfg
          = .ok ⟨some v, burl.getD default_base_url, cf, retries, true⟩)
    ∧ (api_key = none → env = none → os_path_exists fs cf = false →
      inquestlabs_init api_key config burl retries homedir env fs cfg
        = .ok ⟨none, burl.getD default_base_url, cf, retries, true⟩)
    ∧ ∀ s, invalid_config_msg s ≠ missing_key_msg s := by
  subst hcf
  refine ⟨?_, ?_, ?_, ?_, ?_⟩
  · intro h
    simp [inquestlabs_init, h]
  · intro h1 h2
    simp [inquestlabs_init, h1, h2]
  · intro h1 h2 hex hif
    refine ⟨?_, ?_, ?_⟩
    · intro hc
      simp [inquestlabs_init, h1, h2, hex, hif, hc]
    · intro hc
      simp [inquestlabs_init, h1, h2, hex, hif, hc]
    · intro v hc
      simp [inquestlabs_init, h1, h2, hex, hif, hc]
  · intro h1 h2 hex
    subst h1
    subst h2
    simp [inquestlabs_init, hex]
  · intro s h
    have h2 := congrArg String.length h
    rw [invalid_config_msg, missing_key_msg, String.length_append,
      String.length_append] at h2
    have e1 : ("invalid configuration file: ").length = 28 := rfl
    have e2 : ("unable to find inquestlabs.apikey in: ").length = 38 := rfl
    rw [e1, e2] at h2
    omega

/-- C4 witness: the five concrete scenarios — explicit key wins,
environment key next, config key next, total absence resolves to `None`,
and the two distinct config errors. -/
theorem C4_credential_resolution_witness :
    inquestlabs_init (some "X") none none 3 "/h" (some "Y") fsCfg (fun _ => .readRaises)
      = .ok ⟨some "X", default_base_url, "/h/.iqlabskey", 3, true⟩
    ∧ inquestlabs_init none none none 3 "/h" (some "Y") fsCfg (fun _ => .readRaises)
      = .ok ⟨some "Y", default_base_url, "/h/.iqlabskey", 3, true⟩
    ∧ inquestlabs_init none none none 3 "/h" none fsCfg (fun _ => .parsed (some "Z"))
      = .ok ⟨some "Z", default_base_url, "/h/.iqlabskey", 3, true⟩
    ∧ inquestlabs_init none none none 3 "/h" none fs0 (fun _ => .parsed (some "Z"))
      = .ok ⟨none, default_base_url, "/h/.iqlabskey", 3, true⟩
    ∧ inquestlabs_init none none none 3 "/h" none fsCfg (fun _ => .parsed none)
      = .error (.labsException (missing_key_msg "/h/.iqlabskey"))
    ∧ inquestlabs_init none none none 3 "/h" none fsCfg (fun _ => .readRaises)
      = .error (.labsException (invalid_config_msg "/h/.iqlabskey"))
    ∧ invalid_config_msg "/h/.iqlabskey" ≠ missing_key_msg "/h/.iqlabskey" := by
  have h1 := C4_credential_resolution (some "X") none none 3 "/h" (some "Y") fsCfg
    (fun _ => .readRaises) "/h/.iqlabskey" rfl
  have h2 := C4_credential_resolution none none none 3 "/h" (some "Y") fsCfg
    (fun _ => .readRaises) "/h/.iqlabskey" rfl
  have h3 := C4_credential_resolution none none none 3 "/h" none fsCfg
    (fun _ => .parsed (some "Z")) "/h/.iqlabskey" rfl
  have h4 := C4_credential_resolution none none none 3 "/h" none fs0
    (fun _ => .parsed (some "Z")) "/h/.iqlabskey" rfl
  have h5 := C4_credential_resolution none none none 3 "/h" none fsCfg
    (fun _ => .parsed none) "/h/.iqlabskey" rfl
  have h6 := C4_credential_resolution none none none 3 "/h" none fsCfg
    (fun _ => .readRaises) "/h/.iqlabskey" rfl
  refine ⟨h1.1 rfl, h2.2.1 rfl rfl, (h3.2.2.1 rfl rfl (by decide) (by decide)).2.2 "Z" rfl,
    h4.2.2.2.1 rfl rfl (by decide), (h5.2.2.1 rfl rfl (by decide) (by decide)).2.1 rfl,
    (h6.2.2.1 rfl rfl (by decide) (by decide)).1 rfl, h1.2.2.2.2 "/h/.iqlabskey"⟩

/-- C5 counterexample: a response whose payload is the empty byte string
and whose requested hash equals the digest of that (empty) payload is a
"match" in the claim's sense, yet the code raises the hasher's
`InvalidInput` error (the digest is never even recomputed, let alone
compared) and no file is written — refuting "on match the destination
file is written with exactly the received bytes". -/
theorem C5_empty_match_counterexample :
    (dfi_download hashlibTest tEmpty client3 (hashlibTest "sha256" []) "out.bin" fs0).1
      = .error (.labsException hash_neither_msg)
    ∧ (dfi_download hashlibTest tEmpty client3 (hashlibTest "sha256" []) "out.bin" fs0).2.1
      = fs0 := ⟨rfl, rfl⟩

/-- C5 amended: for a non-empty received payload, the sha256 digest is
recomputed and compared to the requested hash before anything is
persisted — on mismatch no file is written and the `IntegrityError`
message carries both the expected and the calculated hash, on match the
destination file holds exactly the received bytes; an empty payload
instead fails in the hasher before the comparison, and no file is
written. -/
theorem C5_download_integrity (hashlib : String → Bytes → String)
    (transport : Nat → TransportOutcome) (c : Client) (sha256v pathv : String)
    (fs : FS) (r : HttpResponse) (hr : transport 0 = .ok r)
    (h200 : r.status_code = 200) :
    (r.content ≠ [] → hashlib "sha256" r.content ≠ sha256v →
      dfi_download hashlib transport c sha256v pathv fs
        = (.error (.labsException (integrity_msg sha256v (hashlib "sha256" r.content))),
           fs, [.httpRequest 0]))
    ∧ (r.content ≠ [] → hashlib "sha256" r.content = sha256v →
      dfi_download hashlib transport c sha256v pathv fs
        = (.ok (), FS.write fs pathv r.content, [.httpRequest 0])
      ∧ FS.read (FS.write fs pathv r.content) pathv = r.content)
    ∧ (r.content = [] →
      dfi_download hashlib transport c sha256v pathv fs
        = (.error (.labsException hash_neither_msg), fs, [.httpRequest 0])) := by
  have hs : strLower "sha256" = "sha256" := rfl
  have hAPI := API_get_response c transport fs "/dfi/download" [("sha256", sha256v)] true r hr
  rw [if_pos h200] at hAPI
  refine ⟨?_, ?_, ?_⟩
  · intro hne hmm
    rcases hcc : r.content with _ | ⟨b, bs⟩
    · exact absurd hcc hne
    · rw [hcc] at hmm
      rw [dfi_download, hAPI, hcc]
      simp [sha256_shortcut, HASH, truthy, truthyBytes, hs, hmm]
  · intro hne hmatch
    rcases hcc : r.content with _ | ⟨b, bs⟩
    · exact absurd hcc hne
    · rw [hcc] at hmatch
      refine ⟨?_, ?_⟩
      · rw [dfi_download, hAPI, hcc]
        simp [sha256_shortcut, HASH, truthy, truthyBytes, hs, hmatch]
      · simp [FS.read, FS.write, List.lookup]
  · intro hc
    rw [dfi_download, hAPI, hc]
    simp [sha256_shortcut, HASH, truthy, truthyBytes]

/-- C5 witness: with payload bytes `[7, 8]`, a wrong requested hash
yields the integrity error naming both hashes and leaves the filesystem
unchanged, while the matching requested hash writes the payload to the
destination. -/
theorem C5_download_integrity_witness :
    dfi_download hashlibTest tData client3 "wrong" "out.bin" fs0
      = (.error (.labsException (integrity_msg "wrong" (hashlibTest "sha256" [7, 8]))),
         fs0, [.httpRequest 0])
    ∧ dfi_download hashlibTest tData client3 (hashlibTest "sha256" [7, 8]) "out.bin" fs0
      = (.ok (), FS.write fs0 "out.bin" [7, 8], [.httpRequest 0]) := by
  have h1 := C5_download_integrity hashlibTest tData client3 "wrong" "out.bin" fs0
    ⟨200, [7, 8], none⟩ rfl rfl
  have h2 := C5_download_integrity hashlibTest tData client3 (hashlibTest "sha256" [7, 8])
    "out.bin" fs0 ⟨200, [7, 8], none⟩ rfl rfl
  exact ⟨h1.1 (by decide) (by decide), (h2.2.1 (by decide) rfl).1⟩

/-- C7: `dfi_search` lowercases category and subcategory, rejects a
category outside ext/hash/ioc with a message naming the allowed
categories, rejects a subcategory outside its category's enumeration
with a message naming that category's allowed subcategories, and for
every valid pair builds the request `/dfi/search/<category>/<subcategory>`
with `ext_` prefixed to ext subcategories and the keyword under field
`hash` for the hash category and `keyword` otherwise. -/
theorem C7_search_validation (category subcategory keyword : String) :
    (VALID_CAT.contains (strLower category) = false →
      dfi_search_request category subcategory keyword
        = .error (.labsException ("invalid category '" ++ strLower category
            ++ "'. valid categories include: " ++ joinComma VALID_CAT)))
    ∧ (strLower category = "ext" → VALID_EXT.contains (strLower subcategory) = false →
      dfi_search_request category subcategory keyword
        = .error (.labsException ("invalid subcategory '" ++ strLower subcategory
            ++ "' for category '" ++ "ext" ++ "'. valid subcategories include: "
            ++ joinComma VALID_EXT)))
    ∧ (strLower category = "hash" → VALID_HASH.contains (strLower subcategory) = false →
      dfi_search_request category subcategory keyword
        = .error (.labsException ("invalid subcategory '" ++ strLower subcategory
            ++ "' for category '" ++ "hash" ++ "'. valid subcategories include: "
            ++ joinComma VALID_HASH)))
    ∧ (strLower category = "ioc" → VALID_IOC.contains (strLower subcategory) = false →
      dfi_search_request category subcategory keyword
        = .error (.labsException ("invalid subcategory '" ++ strLower subcategory
            ++ "' for category '" ++ "ioc" ++ "'. valid subcategories include: "
            ++ joinComma VALID_IOC)))
    ∧ (strLower category = "ext" → VALID_EXT.contains (strLower subcategory) = true →
      dfi_search_request category subcategory keyword
        = .ok ⟨"/dfi/search/ext/" ++ ("ext_" ++ strLower subcategory), "GET",
            [("keyword", keyword)], none⟩)
    ∧ (strLower category = "hash" → VALID_HASH.contains (strLower subcategory) = true →
      dfi_search_request category subcategory keyword
        = .ok ⟨"/dfi/search/hash/" ++ strLower subcategory, "GET",
            [("hash", keyword)], none⟩)
    ∧ (strLower category = "ioc" → VALID_IOC.contains (strLower subcategory) = true →
      dfi_search_request category subcategory keyword
        = .ok ⟨"/dfi/search/ioc/" ++ strLower subcategory, "GET",
            [("keyword", keyword)], none⟩)
    ∧ joinComma VALID_CAT = "ext, hash, ioc"
    ∧ joinComma VALID_EXT = "code, context, metadata, ocr"
    ∧ joinComma VALID_HASH = "md5, sha1, sha256, sha512"
    ∧ joinComma VALID_IOC = "domain, email, filename, ip, url, xmpid" := by
  refine ⟨?_, ?_, ?_, ?_, ?_, ?_, ?_, rfl, rfl, rfl, rfl⟩
  · intro h
    simp only [VALID_CAT] at h
    simp at h
    rw [dfi_search_request]
    simp [VALID_CAT, h]
  all_goals intro hcat hsub
  all_goals simp only [VALID_EXT, VALID_HASH, VALID_IOC] at hsub
  all_goals simp at hsub
  all_goals rw [dfi_search_request]
  all_goals rw [hcat]
  all_goals simp [VALID_CAT, VALID_EXT, VALID_HASH, VALID_IOC, hsub]

/-- C7 witness: the spec's two concrete probes — `("ext", "bogus", "x")`
is rejected naming code, context, metadata, ocr, and
`("hash", "sha256", "deadbeef")` produces the well-formed request shape
without failing validation. -/
theorem C7_search_validation_witness :
    dfi_search_request "ext" "bogus" "x"
      = .error (.labsException ("invalid subcategory '" ++ "bogus"
          ++ "' for category '" ++ "ext" ++ "'. valid subcategories include: "
          ++ "code, context, metadata, ocr"))
    ∧ dfi_search_request "hash" "sha256" "deadbeef"
      = .ok ⟨"/dfi/search/hash/" ++ "sha256", "GET", [("hash", "deadbeef")], none⟩ := by
  have h1 := (C7_search_validation "ext" "bogus" "x").2.1 rfl (by decide)
  have h2 := (C7_search_validation "hash" "sha256" "deadbeef").2.2.2.2.2.1 rfl (by decide)
  exact ⟨h1, h2⟩

/-- C10: a download whose received payload is empty can never succeed:
the sha256 recomputation hands the empty buffer to the hasher, which
takes the "neither path nor bytes supplied" branch, so the call fails
with the hasher's `InvalidInput` error before any integrity comparison
and no file is written. -/
theorem C10_empty_download (hashlib : String → Bytes → String)
    (transport : Nat → TransportOutcome) (c : Client) (sha256v pathv : String)
    (fs : FS) (r : HttpResponse) (hr : transport 0 = .ok r)
    (h200 : r.status_code = 200) (hc : r.content = []) :
    dfi_download hashlib transport c sha256v pathv fs
      = (.error (.labsException hash_neither_msg), fs, [.httpRequest 0]) := by
  have hAPI := API_get_response c transport fs "/dfi/download" [("sha256", sha256v)] true r hr
  rw [if_pos h200] at hAPI
  rw [dfi_download, hAPI, hc]
  simp [sha256_shortcut, HASH, truthy, truthyBytes]

/-- C10 witness: a concrete 200 response with empty body fails with the
hasher's error and leaves the filesystem unchanged. -/
theorem C10_empty_download_witness :
    dfi_download hashlibTest tEmpty client3 "deadbeef" "out.bin" fs0
      = (.error (.labsException hash_neither_msg), fs0, [.httpRequest 0]) :=
  C10_empty_download hashlibTest tEmpty client3 "deadbeef" "out.bin" fs0
    ⟨200, [], none⟩ rfl rfl rfl
